import Mathlib

/-!
# Aura: the localized string table (`aura/translations.h`)

A shallow embedding of the header `translations.h` of the Aura weather display:
the `Language` enumeration, the record `LocalizedStrings`, the seven constant
tables `strings_en` .. `strings_it` and the accessor `get_strings`.

Modelling choices.

* An enumeration value is its underlying integer, so `get_strings` can be asked
  about every integer and not only about the seven enumerators.
* A `const char*` member is an `Option String`: `none` is the null pointer,
  `some s` points at the text `s`. The text is the sequence of Unicode scalar
  values of the UTF-8 encoded source literal.
* A table is written, as in the source, as a brace-enclosed list of initializer
  clauses. `aggregate` assigns the clauses to the members in declaration order
  and leaves a member without a clause null, which is what aggregate
  initialization does with a list that is too short.
* Adjacent string literals and the object-like macro `DEFAULT_CAPTIVE_SSID`
  are joined by `++`, which is what translation phase 6 does with them.
* `get_strings` returns a pointer to a constant table; the embedding returns
  the table itself, so equality of results is equality of content.
-/

set_option maxRecDepth 100000

namespace Aura

/-! ## Data model -/

/-- The enumeration `Language`, as its underlying integer value. -/
abbrev Language := Int

def LANG_EN : Language := 0
def LANG_ES : Language := 1
def LANG_DE : Language := 2
def LANG_FR : Language := 3
def LANG_TR : Language := 4
def LANG_SV : Language := 5
def LANG_IT : Language := 6

/-- The enumerators of `Language`, in declaration order. -/
def supportedLanguages : List Language :=
  [LANG_EN, LANG_ES, LANG_DE, LANG_FR, LANG_TR, LANG_SV, LANG_IT]

/-- The record `struct LocalizedStrings`; a null pointer is `none`. -/
structure LocalizedStrings where
  temp_placeholder : Option String
  feels_like_temp : Option String
  seven_day_forecast : Option String
  hourly_forecast : Option String
  today : Option String
  now : Option String
  am : Option String
  pm : Option String
  noon : Option String
  invalid_hour : Option String
  brightness : Option String
  location : Option String
  use_fahrenheit : Option String
  use_24hr : Option String
  save : Option String
  cancel : Option String
  close : Option String
  location_btn : Option String
  reset_wifi : Option String
  reset : Option String
  change_location : Option String
  aura_settings : Option String
  city : Option String
  search_results : Option String
  city_placeholder : Option String
  wifi_config1 : Option String
  wifi_config2 : Option String
  wifi_config3 : Option String
  wifi_config4 : Option String
  reset_confirmation : Option String
  language_label : Option String
  weekdays : List (Option String)
  use_night_mode : Option String
  night_mode_brightness : Option String
deriving DecidableEq, Repr

/-- One initializer clause of a braced initializer list: a string literal
(after concatenation of adjacent literals) or a nested braced list of string
literals. -/
inductive Clause where
  | str (s : String)
  | braces (elems : List String)
deriving DecidableEq, Repr

/-- The pointer member initialized by clause number `i`: the literal when the
clause is there, the null pointer when the list has no clause `i`. -/
def ptrMember (clauses : List Clause) (i : Nat) : Option String :=
  match clauses.get? i with
  | some (.str s) => some s
  | _ => none

/-- The member `const char* m[n]` initialized by clause number `i`: element `k`
is the `k`-th literal of the nested list, null when the nested list is shorter
or the clause is missing. -/
def arrayMember (clauses : List Clause) (i n : Nat) : List (Option String) :=
  match clauses.get? i with
  | some (.braces elems) => (List.range n).map (fun k => elems.get? k)
  | _ => List.replicate n none

/-- Aggregate initialization of a `LocalizedStrings` from a braced list:
the clauses go to the members in declaration order. -/
def aggregate (clauses : List Clause) : LocalizedStrings where
  temp_placeholder := ptrMember clauses 0
  feels_like_temp := ptrMember clauses 1
  seven_day_forecast := ptrMember clauses 2
  hourly_forecast := ptrMember clauses 3
  today := ptrMember clauses 4
  now := ptrMember clauses 5
  am := ptrMember clauses 6
  pm := ptrMember clauses 7
  noon := ptrMember clauses 8
  invalid_hour := ptrMember clauses 9
  brightness := ptrMember clauses 10
  location := ptrMember clauses 11
  use_fahrenheit := ptrMember clauses 12
  use_24hr := ptrMember clauses 13
  save := ptrMember clauses 14
  cancel := ptrMember clauses 15
  close := ptrMember clauses 16
  location_btn := ptrMember clauses 17
  reset_wifi := ptrMember clauses 18
  reset := ptrMember clauses 19
  change_location := ptrMember clauses 20
  aura_settings := ptrMember clauses 21
  city := ptrMember clauses 22
  search_results := ptrMember clauses 23
  city_placeholder := ptrMember clauses 24
  wifi_config1 := ptrMember clauses 25
  wifi_config2 := ptrMember clauses 26
  wifi_config3 := ptrMember clauses 27
  wifi_config4 := ptrMember clauses 28
  reset_confirmation := ptrMember clauses 29
  language_label := ptrMember clauses 30
  weekdays := arrayMember clauses 31 7
  use_night_mode := ptrMember clauses 32
  night_mode_brightness := ptrMember clauses 33

/-! ## The tables -/

def DEFAULT_CAPTIVE_SSID : String := "Aura"

def strings_en : LocalizedStrings := aggregate [
  .str "--°C", .str "Feels Like", .str "SEVEN DAY FORECAST", .str "HOURLY FORECAST",
  .str "Today", .str "Now", .str "am", .str "pm", .str "Noon", .str "Invalid hour",
  .str "Brightness:", .str "Location:", .str "Use °F:", .str "24hr:",
  .str "Save", .str "Cancel", .str "Close", .str "Location", .str "Reset Wi-Fi",
  .str "Reset", .str "Change Location", .str "Aura Settings",
  .str "City:", .str "Search Results", .str "e.g. London",
  .str "Wi-Fi Configuration",
  .str ("Please connect your\n"
    ++ "phone or laptop to the\n"
    ++ "temporary Wi-Fi access\n point "
    ++ DEFAULT_CAPTIVE_SSID
    ++ "\n"
    ++ "to configure."),
  .str "Or scan the QR.",
  .str ("If you don't see a \n"
    ++ "configuration screen \n"
    ++ "after connecting,\n"
    ++ "visit http://192.168.4.1\n"
    ++ "in your web browser."),
  .str ("Are you sure you want to reset "
    ++ "Wi-Fi credentials?\n\n"
    ++ "You'll need to reconnect to the Wifi SSID " ++ DEFAULT_CAPTIVE_SSID
    ++ " with your phone or browser to "
    ++ "reconfigure Wi-Fi credentials."),
  .str "Language:",
  .braces ["Sun", "Mon", "Tues", "Wed", "Thurs", "Fri", "Sat"],
  .str "Dim screen at night",
  .str "Dim brighness"
]

def strings_es : LocalizedStrings := aggregate [
  .str "--°C", .str "Sensación", .str "PRONÓSTICO 7 DÍAS", .str "PRONÓSTICO POR HORAS",
  .str "Hoy", .str "Ahora", .str "am", .str "pm", .str "Mediodía", .str "Hora inválida",
  .str "Brillo:", .str "Ubicación:", .str "Usar °F:", .str "24h:",
  .str "Guardar", .str "Cancelar", .str "Cerrar", .str "Ubicación", .str "Wi-Fi",
  .str "Restablecer", .str "Cambiar Ubicación", .str "Configuración Aura",
  .str "Ciudad:", .str "Resultados de Búsqueda", .str "ej. Madrid",
  .str "Configuración Wi-Fi",
  .str ("Conecte su teléfono\n"
    ++ "o portátil al punto de\n"
    ++ "acceso Wi-Fi temporal\n"
    ++ DEFAULT_CAPTIVE_SSID
    ++ "\n"
    ++ "para configurar."),
  .str "Or scan the QR.",
  .str ("Si no ve una pantalla\n"
    ++ "de configuración después\n"
    ++ "de conectarse, visite\n"
    ++ "http://192.168.4.1\n"
    ++ "en su navegador."),
  .str ("¿Está seguro de que desea\n"
    ++ "restablecer las credenciales\n"
    ++ "Wi-Fi?\n\n"
    ++ "Deberá reconectarse al SSID " ++ DEFAULT_CAPTIVE_SSID
    ++ " con su teléfono o navegador\n"
    ++ "para reconfigurar las\n"
    ++ "credenciales Wi-Fi."),
  .str "Idioma:",
  .braces ["Dom", "Lun", "Mar", "Mié", "Jue", "Vie", "Sáb"],
  .str "Pantalla noche",
  .str "Dim brighness"
]

def strings_de : LocalizedStrings := aggregate [
  .str "--°C", .str "Gefühlt", .str "7-TAGE VORHERSAGE", .str "STÜNDLICHE VORHERSAGE",
  .str "Heute", .str "Jetzt", .str "", .str "", .str "Mittag", .str "Ungültige Stunde",
  .str "Helligkeit:", .str "Standort:", .str "°F:", .str "24h:",
  .str "Speichern", .str "Abbrechen", .str "Schließen", .str "Standort", .str "Wi-Fi",
  .str "Zurücksetzen", .str "Standort ändern", .str "Aura Einstellungen",
  .str "Stadt:", .str "Suchergebnisse", .str "z.B. Berlin",
  .str "Wi-Fi Konfiguration",
  .str ("Verbinden Sie Ihr Telefon\n"
    ++ "oder Laptop mit dem\n"
    ++ "temporären Wi-Fi\n"
    ++ "Zugangspunkt "
    ++ DEFAULT_CAPTIVE_SSID
    ++ "\n"
    ++ "zum Konfigurieren."),
  .str "Or scan the QR.",
  .str ("Wenn Sie keinen\n"
    ++ "Konfigurationsbildschirm\n"
    ++ "sehen, besuchen Sie\n"
    ++ "http://192.168.4.1\n"
    ++ "in Ihrem Browser."),
  .str ("Sind Sie sicher, dass Sie\n"
    ++ "die Wi-Fi Zugangsdaten\n"
    ++ "zurücksetzen möchten?\n\n"
    ++ "Sie müssen sich erneut mit\n"
    ++ "der SSID " ++ DEFAULT_CAPTIVE_SSID
    ++ " verbinden, um die\n"
    ++ "Wi-Fi Zugangsdaten\n"
    ++ "neu zu konfigurieren."),
  .str "Sprache:",
  .braces ["So", "Mo", "Di", "Mi", "Do", "Fr", "Sa"],
  .str "Nacht-Dimmen",
  .str "Dim brighness"
]

def strings_fr : LocalizedStrings := aggregate [
  .str "--°C", .str "Ressenti", .str "PRÉVISIONS 7 JOURS", .str "PRÉVISIONS HORAIRES",
  .str "Aujourd'hui", .str "Maintenant", .str "h", .str "h", .str "Midi", .str "Heure invalide",
  .str "Luminosité:", .str "Lieu:", .str "Utiliser °F:", .str "24h:",
  .str "Sauvegarder", .str "Annuler", .str "Fermer", .str "Lieu", .str "Wi-Fi",
  .str "Réinitialiser", .str "Changer de lieu", .str "Paramètres Aura",
  .str "Ville:", .str "Résultats de recherche", .str "ex. Paris",
  .str "Configuration Wi-Fi",
  .str ("Connectez votre téléphone\n"
    ++ "ou ordinateur portable au\n"
    ++ "point d'accès Wi-Fi\n"
    ++ "temporaire "
    ++ DEFAULT_CAPTIVE_SSID
    ++ "\n"
    ++ "pour configurer."),
  .str "Or scan the QR.",
  .str ("Si vous ne voyez pas\n"
    ++ "d'écran de configuration\n"
    ++ "après connexion, visitez\n"
    ++ "http://192.168.4.1\n"
    ++ "dans votre navigateur."),
  .str ("Êtes-vous sûr de vouloir\n"
    ++ "réinitialiser les\n"
    ++ "identifiants Wi-Fi?\n\n"
    ++ "Vous devrez vous reconnecter\n"
    ++ "au SSID " ++ DEFAULT_CAPTIVE_SSID
    ++ " avec votre téléphone ou\n"
    ++ "navigateur pour reconfigurer\n"
    ++ "les identifiants Wi-Fi."),
  .str "Langue:",
  .braces ["Dim", "Lun", "Mar", "Mer", "Jeu", "Ven", "Sam"],
  .str "Nuit écran",
  .str "Dim brighness"
]

def strings_tr : LocalizedStrings := aggregate [
  .str "--°C", .str "Hissedilen", .str "YEDI GÜNLÜK TAHMIN", .str "SAATLIK TAHMIN",
  .str "Bugün", .str "Simdi", .str "öö", .str "ös", .str "Öğle", .str "Geçersiz saat",
  .str "Parlaklik:", .str "Konum:", .str "°F Kullan:", .str "24 Saat:",
  .str "Kaydet", .str "İptal", .str "Kapat", .str "Konum", .str "Wi-Fi Sifirla",
  .str "Sifirla", .str "Konumu Değiştir", .str "Aura Ayarlari",
  .str "Şehir:", .str "Arama Sonuçları", .str "örn. Londra",
  .str "Wi-Fi Yapilandirmasi",
  .str ("Lütfen telefonunuzu veya\n"
    ++ "bilgisayarinizi geçici Wi-Fi\n"
    ++ "erişim noktasina bağlayin "
    ++ DEFAULT_CAPTIVE_SSID
    ++ "\n"
    ++ "yapilandirmak için."),
  .str ("Bağlandiktan sonra bir\n"
    ++ "Or scan the QR."),
  .str ("yapilandirma ekrani görmezseniz,\n"
    ++ "web tarayicinizda\n"
    ++ "http://192.168.4.1 adresine gidin."),
  .str ("Wi-Fi kimlik bilgilerini sifirlamak\n"
    ++ "istediğinizden emin misiniz?\n\n"
    ++ "Wi-Fi kimlik bilgilerini yeniden\n"
    ++ "yapilandirmak için telefonunuz veya\n"
    ++ "tarayiciniz ile " ++ DEFAULT_CAPTIVE_SSID
    ++ " SSID'sine tekrar bağlanmaniz\n"
    ++ "gerekecek."),
  .str "Dil:",
  .braces ["Paz", "Pzt", "Sal", "Çar", "Per", "Cum", "Cmt"],
  .str "Gece kısık",
  .str "Dim brighness"
]

def strings_sv : LocalizedStrings := aggregate [
  .str "--°C", .str "Känns som", .str "7-DAGARS PROGNOS", .str "TIMPROGNOS",
  .str "Idag", .str "Nu", .str "", .str "", .str "Middag", .str "Ogiltig timme",
  .str "Ljusstyrka:", .str "Plats:", .str "Använd °F:", .str "24h:",
  .str "Spara", .str "Avbryt", .str "Stäng", .str "Plats", .str "Aterställ Wi-Fi",
  .str "Aterställ", .str "Andra plats", .str "Aura-inställningar",
  .str "Stad:", .str "Sökresultat", .str "t.ex. Stockholm",
  .str "Wi-Fi-konfiguration",
  .str ("Anslut din telefon\n"
    ++ "eller laptop till den\n"
    ++ "tillfälliga Wi-Fi-\n"
    ++ "atkomstpunkten "
    ++ DEFAULT_CAPTIVE_SSID
    ++ "\n"
    ++ "för att konfigurera."),
  .str "Or scan the QR.",
  .str ("Om du inte ser en\n"
    ++ "konfigurationsskärm\n"
    ++ "efter anslutning, besök\n"
    ++ "http://192.168.4.1\n"
    ++ "i din webbläsare."),
  .str ("Ar du säker pa att du vill\n"
    ++ "aterställa Wi-Fi-\n"
    ++ "autentiseringsuppgifter?\n\n"
    ++ "Du maste ateransluta till\n"
    ++ "SSID " ++ DEFAULT_CAPTIVE_SSID
    ++ " med din telefon eller\n"
    ++ "webbläsare för att\n"
    ++ "omkonfigurera Wi-Fi-\n"
    ++ "autentiseringsuppgifter."),
  .str "Sprak:",
  .braces ["Sön", "Man", "Tis", "Ons", "Tor", "Fre", "Lör"],
  .str "Nattdämpning",
  .str "Dim brighness"
]

def strings_it : LocalizedStrings := aggregate [
  .str "--°C", .str "Percepita", .str "PREVISIONI A 7 GIORNI", .str "PREVISIONI ORARIE",
  .str "Oggi", .str "Ora", .str "am", .str "pm", .str "Mezzog.", .str "Ora non valida",
  .str "Luminosità:", .str "Posizione:", .str "Utilizzo °F:", .str "24hr:",
  .str "Salva", .str "Cancellare", .str "Close", .str "Posizione", .str "Resetta Wi-Fi",
  .str "Reset", .str "Cambia posizione", .str "Impostazioni aura",
  .str "Città:", .str "Risultati di ricerca", .str "e.s. Londra",
  .str "Configurazione Wi-Fi",
  .str ("Per favore collega il tuo\n"
    ++ "smartphone o laptop\n"
    ++ "al Wi-Fi temporaneo\n "
    ++ DEFAULT_CAPTIVE_SSID
    ++ "\n"
    ++ "per configurare la rete."),
  .str "Or scan the QR.",
  .str ("Se non vedi la \n"
    ++ "Schermata di configurazione \n"
    ++ "dopo il collegamento,\n"
    ++ "visita http://192.168.4.1\n"
    ++ "sul tuo web browser."),
  .str ("Sei sicuro di voler ripristinare "
    ++ "le credenzili Wi-Fi ?\n\n"
    ++ "Dovrai riconnetterti al WiFi con SSID " ++ DEFAULT_CAPTIVE_SSID
    ++ "con il tuo telefono o browser a "
    ++ "riconfigurare le credenziali Wi-Fi."),
  .str "Lingua:",
  .braces ["Dom", "Lun", "Mar", "Mer", "Gio", "Ven", "Sab"],
  .str "Schermo notte",
  .str "Dim brighness"
]

/-! ## The accessor -/

/-- The function `get_strings`: a `switch` with six cases and a `default`. -/
def get_strings (current_language : Language) : LocalizedStrings :=
  if current_language = LANG_ES then strings_es
  else if current_language = LANG_DE then strings_de
  else if current_language = LANG_FR then strings_fr
  else if current_language = LANG_TR then strings_tr
  else if current_language = LANG_SV then strings_sv
  else if current_language = LANG_IT then strings_it
  else strings_en

/-! ## Properties of a text field -/

/-- The field points at a text of at least one character. -/
def isNonEmptyText : Option String → Bool
  | some s => !s.data.isEmpty
  | none => false

/-- The named pointer members of a record, each with its member name, in
declaration order (the array member `weekdays` apart). -/
def LocalizedStrings.namedFields (t : LocalizedStrings) : List (String × Option String) :=
  [("temp_placeholder", t.temp_placeholder), ("feels_like_temp", t.feels_like_temp),
   ("seven_day_forecast", t.seven_day_forecast), ("hourly_forecast", t.hourly_forecast),
   ("today", t.today), ("now", t.now), ("am", t.am), ("pm", t.pm), ("noon", t.noon),
   ("invalid_hour", t.invalid_hour), ("brightness", t.brightness),
   ("location", t.location), ("use_fahrenheit", t.use_fahrenheit),
   ("use_24hr", t.use_24hr), ("save", t.save), ("cancel", t.cancel), ("close", t.close),
   ("location_btn", t.location_btn), ("reset_wifi", t.reset_wifi), ("reset", t.reset),
   ("change_location", t.change_location), ("aura_settings", t.aura_settings),
   ("city", t.city), ("search_results", t.search_results),
   ("city_placeholder", t.city_placeholder), ("wifi_config1", t.wifi_config1),
   ("wifi_config2", t.wifi_config2), ("wifi_config3", t.wifi_config3),
   ("wifi_config4", t.wifi_config4), ("reset_confirmation", t.reset_confirmation),
   ("language_label", t.language_label), ("use_night_mode", t.use_night_mode),
   ("night_mode_brightness", t.night_mode_brightness)]

/-- The text `word` occurs in the field as a contiguous run of characters. -/
def FieldContains (word : String) (f : Option String) : Prop :=
  ∃ s, f = some s ∧ word.data <:+: s.data

/-- Search for `word` as a contiguous run of `l`, position by position. -/
def infixCheck (word : List Char) : List Char → Bool
  | [] => word.isEmpty
  | c :: cs => word.isPrefixOf (c :: cs) || infixCheck word cs

/-- Executable form of `FieldContains`. -/
def fieldContainsCheck (word : String) : Option String → Bool
  | some s => infixCheck word.data s.data
  | none => false

/-- A blank or a line feed. -/
def isSpace (c : Char) : Bool := c = ' ' || c = '\n'

/-- The text `word` stands in the field as a word of its own: some occurrence
has a whitespace character right before it and right after it. -/
def SeparateWord (word : String) (f : Option String) : Prop :=
  ∃ s pre a b post, f = some s ∧ s.data = pre ++ a :: (word.data ++ b :: post) ∧
    isSpace a = true ∧ isSpace b = true

/-- Search `l` for an occurrence of `word` between two whitespace characters. -/
def separateWordCheck (word : List Char) : List Char → Bool
  | [] => false
  | a :: rest =>
    (isSpace a && word.isPrefixOf rest && (rest.drop word.length).head?.any isSpace)
      || separateWordCheck word rest

/-- Executable form of `SeparateWord`. -/
def fieldSeparateWordCheck (word : String) : Option String → Bool
  | some s => separateWordCheck word.data s.data
  | none => false

/-! ## Soundness of the executable checks -/

theorem infixCheck_sound (word l : List Char) (h : infixCheck word l = true) :
    word <:+: l := by
  induction l with
  | nil =>
    simp [infixCheck] at h
    subst h
    exact List.infix_refl _
  | cons c cs ih =>
    simp only [infixCheck, Bool.or_eq_true] at h
    rcases h with h | h
    · exact (List.isPrefixOf_iff_prefix.mp h).isInfix
    · exact (ih h).trans (List.suffix_cons c cs).isInfix

theorem fieldContainsCheck_sound (word : String) (f : Option String)
    (h : fieldContainsCheck word f = true) : FieldContains word f := by
  cases f with
  | none => simp [fieldContainsCheck] at h
  | some s => exact ⟨s, rfl, infixCheck_sound _ _ h⟩

theorem separateWordCheck_iff (word l : List Char) :
    separateWordCheck word l = true ↔
      ∃ pre a b post, l = pre ++ a :: (word ++ b :: post) ∧
        isSpace a = true ∧ isSpace b = true := by
  induction l with
  | nil => simp [separateWordCheck]
  | cons x rest ih =>
    simp only [separateWordCheck, Bool.or_eq_true, Bool.and_eq_true]
    constructor
    · rintro (⟨⟨hx, hp⟩, hb⟩ | h)
      · obtain ⟨t, rfl⟩ := List.isPrefixOf_iff_prefix.mp hp
        rw [List.drop_left] at hb
        cases t with
        | nil => simp at hb
        | cons b post =>
          simp only [List.head?_cons, Option.any_some] at hb
          exact ⟨[], x, b, post, rfl, hx, hb⟩
      · obtain ⟨pre, a, b, post, rfl, ha, hb⟩ := ih.mp h
        exact ⟨x :: pre, a, b, post, rfl, ha, hb⟩
    · rintro ⟨pre, a, b, post, hl, ha, hb⟩
      cases pre with
      | nil =>
        simp only [List.nil_append, List.cons.injEq] at hl
        obtain ⟨rfl, rfl⟩ := hl
        left
        refine ⟨⟨ha, List.isPrefixOf_iff_prefix.mpr (List.prefix_append _ _)⟩, ?_⟩
        rw [List.drop_left]
        simpa using hb
      | cons y pre =>
        simp only [List.cons_append, List.cons.injEq] at hl
        obtain ⟨rfl, rfl⟩ := hl
        right
        exact ih.mpr ⟨pre, a, b, post, rfl, ha, hb⟩

theorem fieldSeparateWordCheck_iff (word : String) (f : Option String) :
    fieldSeparateWordCheck word f = true ↔ SeparateWord word f := by
  cases f with
  | none => simp [fieldSeparateWordCheck, SeparateWord]
  | some s =>
    simp only [fieldSeparateWordCheck, SeparateWord, separateWordCheck_iff]
    constructor
    · rintro ⟨pre, a, b, post, h, ha, hb⟩
      exact ⟨s, pre, a, b, post, rfl, h, ha, hb⟩
    · rintro ⟨s', pre, a, b, post, hs, h, ha, hb⟩
      cases hs
      exact ⟨pre, a, b, post, h, ha, hb⟩

/-! ## The accessor `get_strings` -/

/-- C1: for every identifier value that is none of the six non-default
enumerators `LANG_ES` .. `LANG_IT` (so for `LANG_EN`, for 7, for a negative
value), `get_strings` returns the English table `strings_en`. The function is
total: it has a result for every integer. -/
theorem get_strings_default (l : Language)
    (h : l ∉ [LANG_ES, LANG_DE, LANG_FR, LANG_TR, LANG_SV, LANG_IT]) :
    get_strings l = strings_en := by
  simp only [List.mem_cons, List.mem_singleton, not_or, List.mem_nil_iff, not_false_eq_true,
    and_true] at h
  obtain ⟨h1, h2, h3, h4, h5, h6⟩ := h
  simp [get_strings, h1, h2, h3, h4, h5, h6]

theorem get_strings_default_witness :
    ((7 : Language) ∉ [LANG_ES, LANG_DE, LANG_FR, LANG_TR, LANG_SV, LANG_IT] ∧
      get_strings 7 = strings_en) ∧
    ((-1 : Language) ∉ [LANG_ES, LANG_DE, LANG_FR, LANG_TR, LANG_SV, LANG_IT] ∧
      get_strings (-1) = strings_en) ∧
    (LANG_EN ∉ [LANG_ES, LANG_DE, LANG_FR, LANG_TR, LANG_SV, LANG_IT] ∧
      get_strings LANG_EN = strings_en) :=
  ⟨⟨by decide, get_strings_default 7 (by decide)⟩,
   ⟨by decide, get_strings_default (-1) (by decide)⟩,
   ⟨by decide, get_strings_default LANG_EN (by decide)⟩⟩

/-- C2: for each of the seven enumerators `get_strings` returns the table of
that language, and the `language_label` of the result is "Language:",
"Idioma:", "Sprache:", "Langue:", "Dil:", "Sprak:" and "Lingua:" in turn. -/
theorem get_strings_supported :
    (get_strings LANG_EN = strings_en ∧ get_strings LANG_ES = strings_es ∧
      get_strings LANG_DE = strings_de ∧ get_strings LANG_FR = strings_fr ∧
      get_strings LANG_TR = strings_tr ∧ get_strings LANG_SV = strings_sv ∧
      get_strings LANG_IT = strings_it) ∧
    ((get_strings LANG_EN).language_label = some "Language:" ∧
      (get_strings LANG_ES).language_label = some "Idioma:" ∧
      (get_strings LANG_DE).language_label = some "Sprache:" ∧
      (get_strings LANG_FR).language_label = some "Langue:" ∧
      (get_strings LANG_TR).language_label = some "Dil:" ∧
      (get_strings LANG_SV).language_label = some "Sprak:" ∧
      (get_strings LANG_IT).language_label = some "Lingua:") :=
  ⟨⟨rfl, rfl, rfl, rfl, rfl, rfl, rfl⟩, ⟨rfl, rfl, rfl, rfl, rfl, rfl, rfl⟩⟩

/-! ## Content of the tables -/

/-- C3, as stated, fails: it is not the case that for every supported language
every named text field of the returned set is non-empty (and the weekday
sequence has 7 entries); the German table has the empty text in `am`. -/
theorem all_fields_nonempty_fails :
    ¬ (∀ l ∈ supportedLanguages,
        (∀ p ∈ (get_strings l).namedFields, isNonEmptyText p.2 = true) ∧
        (get_strings l).weekdays.length = 7) := by
  intro h
  have hde := (h LANG_DE (by decide)).1 ("am", (get_strings LANG_DE).am)
    (by simp [LocalizedStrings.namedFields])
  revert hde
  decide

/-- C3, amended: for every supported language every named text field of the
returned set other than `am` and `pm` is a non-empty text and the weekday
sequence has exactly 7 entries; `am` and `pm` are non-empty texts for English,
Spanish, French, Turkish and Italian, and are the empty text (not null) for
German and Swedish. -/
theorem fields_nonempty_except_am_pm (l : Language) (h : l ∈ supportedLanguages) :
    (∀ p ∈ (get_strings l).namedFields, p.1 ≠ "am" → p.1 ≠ "pm" →
      isNonEmptyText p.2 = true) ∧
    (get_strings l).weekdays.length = 7 ∧
    (l ≠ LANG_DE → l ≠ LANG_SV →
      isNonEmptyText (get_strings l).am = true ∧ isNonEmptyText (get_strings l).pm = true) ∧
    (l = LANG_DE ∨ l = LANG_SV →
      (get_strings l).am = some "" ∧ (get_strings l).pm = some "") := by
  simp only [supportedLanguages, List.mem_cons, List.mem_singleton, List.mem_nil_iff,
    or_false] at h
  rcases h with rfl | rfl | rfl | rfl | rfl | rfl | rfl <;> decide

theorem fields_nonempty_except_am_pm_witness :
    LANG_FR ∈ supportedLanguages ∧
    isNonEmptyText (get_strings LANG_FR).language_label = true ∧
    (get_strings LANG_FR).weekdays.length = 7 ∧
    isNonEmptyText (get_strings LANG_FR).am = true :=
  ⟨by decide,
   (fields_nonempty_except_am_pm LANG_FR (by decide)).1
     ("language_label", (get_strings LANG_FR).language_label)
     (by simp [LocalizedStrings.namedFields]) (by decide) (by decide),
   (fields_nonempty_except_am_pm LANG_FR (by decide)).2.1,
   ((fields_nonempty_except_am_pm LANG_FR (by decide)).2.2.1 (by decide) (by decide)).1⟩

/-- C4: for every supported language the default network name
`DEFAULT_CAPTIVE_SSID` ("Aura") occurs verbatim, as a contiguous run of
characters, in both `wifi_config2` and `reset_confirmation` of the set
returned by `get_strings`. -/
theorem ssid_in_instructions (l : Language) (h : l ∈ supportedLanguages) :
    FieldContains DEFAULT_CAPTIVE_SSID (get_strings l).wifi_config2 ∧
    FieldContains DEFAULT_CAPTIVE_SSID (get_strings l).reset_confirmation := by
  simp only [supportedLanguages, List.mem_cons, List.mem_singleton, List.mem_nil_iff,
    or_false] at h
  rcases h with rfl | rfl | rfl | rfl | rfl | rfl | rfl <;>
    exact ⟨fieldContainsCheck_sound _ _ (by decide), fieldContainsCheck_sound _ _ (by decide)⟩

theorem ssid_in_instructions_witness :
    LANG_TR ∈ supportedLanguages ∧
    FieldContains "Aura" (get_strings LANG_TR).wifi_config2 ∧
    FieldContains "Aura" (get_strings LANG_TR).reset_confirmation :=
  ⟨by decide, ssid_in_instructions LANG_TR (by decide)⟩

/-- C5: for every supported language the weekday sequence of the set returned
by `get_strings` is that language's list of abbreviations, Sunday first, as the
claim spells them out; entry 1 of the English sequence is "Mon". -/
theorem weekdays_tables :
    (get_strings LANG_EN).weekdays =
      [some "Sun", some "Mon", some "Tues", some "Wed", some "Thurs", some "Fri", some "Sat"] ∧
    (get_strings LANG_ES).weekdays =
      [some "Dom", some "Lun", some "Mar", some "Mié", some "Jue", some "Vie", some "Sáb"] ∧
    (get_strings LANG_DE).weekdays =
      [some "So", some "Mo", some "Di", some "Mi", some "Do", some "Fr", some "Sa"] ∧
    (get_strings LANG_FR).weekdays =
      [some "Dim", some "Lun", some "Mar", some "Mer", some "Jeu", some "Ven", some "Sam"] ∧
    (get_strings LANG_TR).weekdays =
      [some "Paz", some "Pzt", some "Sal", some "Çar", some "Per", some "Cum", some "Cmt"] ∧
    (get_strings LANG_SV).weekdays =
      [some "Sön", some "Man", some "Tis", some "Ons", some "Tor", some "Fre", some "Lör"] ∧
    (get_strings LANG_IT).weekdays =
      [some "Dom", some "Lun", some "Mar", some "Mer", some "Gio", some "Ven", some "Sab"] ∧
    (get_strings LANG_EN).weekdays.get? 1 = some (some "Mon") := by
  refine ⟨?_, ?_, ?_, ?_, ?_, ?_, ?_, ?_⟩ <;> decide

/-- C6, at the input where the code departs from it. The part of the claim
about null members holds: in all seven tables each of the 33 named text
members and each of the 7 weekday entries points at a text, and the last
member `night_mode_brightness` holds the last initializer. But in the Turkish
table one initializer literal stands in the neighbouring member. In the six
other tables `wifi_config3` holds "Or scan the QR." alone and `wifi_config4`
holds the whole browser instruction, which begins with a capital letter. In
the Turkish table `wifi_config3` holds "Bağlandiktan sonra bir\n", the first
line of the browser instruction, in front of "Or scan the QR.", and
`wifi_config4` holds only the rest of that instruction, beginning in
mid-sentence with "yapilandirma ekrani". -/
theorem wifi_config4_literal_in_wifi_config3_tr :
    (supportedLanguages.all (fun l =>
        (get_strings l).namedFields.length == 33 &&
        (get_strings l).namedFields.all (fun p => p.2.isSome) &&
        (get_strings l).weekdays.length == 7 &&
        (get_strings l).weekdays.all Option.isSome &&
        (get_strings l).night_mode_brightness == some "Dim brighness") = true) ∧
    ([LANG_EN, LANG_ES, LANG_DE, LANG_FR, LANG_SV, LANG_IT].all (fun l =>
        (get_strings l).wifi_config3 == some "Or scan the QR." &&
        (get_strings l).wifi_config4.any (fun s => s.data.head?.any Char.isUpper)) = true) ∧
    (get_strings LANG_TR).wifi_config3 ≠ some "Or scan the QR." ∧
    (get_strings LANG_TR).wifi_config3 =
      some ("Bağlandiktan sonra bir\n" ++ "Or scan the QR.") ∧
    (get_strings LANG_TR).wifi_config4 =
      some ("yapilandirma ekrani görmezseniz,\n" ++ "web tarayicinizda\n" ++
        "http://192.168.4.1 adresine gidin.") ∧
    (get_strings LANG_TR).wifi_config4.any (fun s => s.data.head?.any Char.isUpper) = false := by
  refine ⟨?_, ?_, ?_, ?_, ?_, ?_⟩ <;> decide

/-- C7: `wifi_config3` is the untranslated English text "Or scan the QR." in
the Spanish, German, French, Swedish and Italian sets, equal to the English
member; in the Turkish set it differs from the English member and is that text
with "Bağlandiktan sonra bir\n" in front, the two adjacent literals joined. -/
theorem wifi_config3_untranslated (l : Language)
    (h : l ∈ [LANG_ES, LANG_DE, LANG_FR, LANG_SV, LANG_IT]) :
    ((get_strings l).wifi_config3 = some "Or scan the QR." ∧
      (get_strings l).wifi_config3 = (get_strings LANG_EN).wifi_config3) ∧
    ((get_strings LANG_TR).wifi_config3 ≠ (get_strings LANG_EN).wifi_config3 ∧
      (get_strings LANG_TR).wifi_config3 =
        some ("Bağlandiktan sonra bir\n" ++ "Or scan the QR.")) := by
  simp only [List.mem_cons, List.mem_singleton, List.mem_nil_iff, or_false] at h
  rcases h with rfl | rfl | rfl | rfl | rfl <;> decide

theorem wifi_config3_untranslated_witness :
    LANG_SV ∈ [LANG_ES, LANG_DE, LANG_FR, LANG_SV, LANG_IT] ∧
    (get_strings LANG_SV).wifi_config3 = some "Or scan the QR." ∧
    (get_strings LANG_TR).wifi_config3 = some "Bağlandiktan sonra bir\nOr scan the QR." :=
  ⟨by decide, (wifi_config3_untranslated LANG_SV (by decide)).1.1,
   (wifi_config3_untranslated LANG_SV (by decide)).2.2⟩

/-- C8: `get_strings` is injective on the supported set: two distinct supported
identifiers give sets with different `language_label`, hence different sets;
and a value yields the English set exactly when it is none of the six
non-default enumerators. -/
theorem get_strings_injective (a b : Language) (ha : a ∈ supportedLanguages)
    (hb : b ∈ supportedLanguages) (hab : a ≠ b) :
    (get_strings a).language_label ≠ (get_strings b).language_label ∧
    get_strings a ≠ get_strings b ∧
    (∀ l : Language, get_strings l = strings_en ↔
      l ∉ [LANG_ES, LANG_DE, LANG_FR, LANG_TR, LANG_SV, LANG_IT]) := by
  have key : (get_strings a).language_label ≠ (get_strings b).language_label := by
    simp only [supportedLanguages, List.mem_cons, List.mem_singleton, List.mem_nil_iff,
      or_false] at ha hb
    rcases ha with rfl | rfl | rfl | rfl | rfl | rfl | rfl <;>
      rcases hb with rfl | rfl | rfl | rfl | rfl | rfl | rfl <;>
      first
        | exact absurd rfl hab
        | decide
  refine ⟨key, fun hEq => key (by rw [hEq]), fun l => ⟨fun hl hmem => ?_, fun hl => ?_⟩⟩
  · simp only [List.mem_cons, List.mem_singleton, List.mem_nil_iff, or_false] at hmem
    have hlab : (get_strings l).language_label = some "Language:" := by rw [hl]; rfl
    rcases hmem with rfl | rfl | rfl | rfl | rfl | rfl <;> revert hlab <;> decide
  · simp only [List.mem_cons, List.mem_singleton, not_or, List.mem_nil_iff, not_false_eq_true,
      and_true] at hl
    obtain ⟨h1, h2, h3, h4, h5, h6⟩ := hl
    simp [get_strings, h1, h2, h3, h4, h5, h6]

theorem get_strings_injective_witness :
    LANG_DE ∈ supportedLanguages ∧ LANG_SV ∈ supportedLanguages ∧ LANG_DE ≠ LANG_SV ∧
    (get_strings LANG_DE).language_label ≠ (get_strings LANG_SV).language_label ∧
    get_strings LANG_DE ≠ get_strings LANG_SV :=
  ⟨by decide, by decide, by decide,
   (get_strings_injective LANG_DE LANG_SV (by decide) (by decide) (by decide)).1,
   (get_strings_injective LANG_DE LANG_SV (by decide) (by decide) (by decide)).2.1⟩

/-- C9, at the input where the code departs from it: in the Italian set the
network name is a word of its own in `wifi_config2`, as it is in the English
`reset_confirmation`, but in the Italian `reset_confirmation` no occurrence of
"Aura" stands between two whitespace characters: the text reads
"SSID Auracon il tuo", the literal after the name lacking its leading blank. -/
theorem ssid_not_separate_word_it :
    SeparateWord DEFAULT_CAPTIVE_SSID (get_strings LANG_IT).wifi_config2 ∧
    SeparateWord DEFAULT_CAPTIVE_SSID (get_strings LANG_EN).reset_confirmation ∧
    ¬ SeparateWord DEFAULT_CAPTIVE_SSID (get_strings LANG_IT).reset_confirmation ∧
    (get_strings LANG_IT).reset_confirmation =
      some ("Sei sicuro di voler ripristinare le credenzili Wi-Fi ?\n\n" ++
        "Dovrai riconnetterti al WiFi con SSID Auracon il tuo telefono o browser a " ++
        "riconfigurare le credenziali Wi-Fi.") := by
  refine ⟨(fieldSeparateWordCheck_iff _ _).mp (by decide),
    (fieldSeparateWordCheck_iff _ _).mp (by decide), fun hw => ?_, by decide⟩
  have hc := (fieldSeparateWordCheck_iff _ _).mpr hw
  revert hc
  decide

/-- C10: for every identifier value, supported or not, the `wifi_config4`
member of the set returned by `get_strings` contains the configuration address
"http://192.168.4.1" verbatim. -/
theorem config_address_in_wifi_config4 (l : Language) :
    FieldContains "http://192.168.4.1" (get_strings l).wifi_config4 := by
  apply fieldContainsCheck_sound
  unfold get_strings
  split_ifs <;> decide

end Aura
